import Mathlib

/-!
Shallow embedding of the page-serving core of the Perseus framework
(`packages/perseus/src/serve.rs` together with the template descriptor of
`packages/perseus/src/template/core.rs` and the store contract of
`packages/perseus/src/stores/immutable.rs`), with theorems checking the
specification's claims about it.

Conventions of the embedding:
- asynchronous Rust functions become pure Lean functions; every `.await?`
  becomes an explicit `match` on an `Except` value;
- the artifact store is an association list from asset names to read
  results, so a store may hold keys whose read fails with an arbitrary
  error (mirroring the `read(name) -> Result<String>` contract);
- timestamps are modelled as integers carried in their decimal string
  form, standing in for the external `chrono` RFC 3339 datetimes;
- functions that write to the store or invoke the build-state generator
  additionally return the updated store and the list of arguments passed
  to the build-state generator, making effects observable.
-/

/-- Errors of the artifact store, following `StoreError` as used by
`ImmutableStore::read`/`write` in `stores/immutable.rs`: a missing asset
is `notFound`, any other I/O failure is `readFailed`/`writeFailed`. -/
inductive StoreError where
  | notFound (name : String)
  | readFailed (name : String) (source : String)
  | writeFailed (name : String) (source : String)
deriving DecidableEq, Repr

/-- Attribution of a generation failure to the client or the server. -/
inductive ErrorCause where
  | client (code : Option Nat)
  | server (code : Option Nat)
deriving DecidableEq, Repr

/-- A user-generator error together with its mandatory statement of
causation (`GenericErrorWithCause`); the opaque boxed error is a string. -/
structure GenericErrorWithCause where
  error : String
  cause : ErrorCause
deriving DecidableEq, Repr

/-- The error taxonomy of the serving core, covering the variants the
source constructs: store errors, failed render functions, disabled
template features, schedule decoding failures, both states being defined
at amalgamation, unknown pages and unsupported locales. -/
inductive PerseusError where
  | storeError (e : StoreError)
  | renderFnFailed (fn_name : String) (template_name : String)
      (cause : ErrorCause) (source : String)
  | templateFeatureNotEnabled (template_name : String) (feature_name : String)
  | scheduleDecodeError (source : String)
  | bothStatesDefined
  | pageNotFound (path : String)
  | localeNotSupported (locale : String)
deriving DecidableEq, Repr

/-- The artifact store (`ConfigManager` in `serve.rs`): an association
list from asset names to the result reading that asset produces. A name
absent from the list reads as `NotFound`; a name may also be mapped to an
explicit error, modelling a store whose read fails for another reason. -/
structure ConfigManager where
  entries : List (String × Except StoreError String)
deriving Repr

/-- Reads the given asset: the stored result if the name is present,
`NotFound` otherwise. -/
def ConfigManager.read (cm : ConfigManager) (name : String) :
    Except StoreError String :=
  match cm.entries.lookup name with
  | some r => r
  | none => Except.error (StoreError.notFound name)

/-- Writes the given asset; the new entry shadows any previous one. -/
def ConfigManager.write (cm : ConfigManager) (name : String)
    (content : String) : ConfigManager :=
  ⟨(name, Except.ok content) :: cm.entries⟩

/-- Translators are opaque to the serving core. -/
abbrev Translator := String

/-- Requests are opaque to the serving core (their bodies are empty). -/
abbrev Request := String

/-- A translations manager resolves a locale to a translator, or fails. -/
abbrev TranslationsManager := String → Except PerseusError Translator

/-- Modelled from the spec: the `States` bundle (declared in the template
module but absent from the sources at hand) holds the two optional state
slots, `build_state` and `request_state`. -/
structure States where
  build_state : Option String
  request_state : Option String
deriving DecidableEq, Repr

/-- Modelled from the spec: a fresh bundle with neither slot set. -/
def States.new : States := ⟨none, none⟩

/-- Modelled from the spec: both slots are set. -/
def States.both_defined (s : States) : Bool :=
  s.build_state.isSome && s.request_state.isSome

/-- Modelled from the spec: when at most one slot is set, return it (or
`none` when neither is, as a basic template requires); asking for the
defined state when both are set is an error. -/
def States.get_defined (s : States) : Except PerseusError (Option String) :=
  if s.both_defined then Except.error PerseusError.bothStatesDefined
  else if s.build_state.isSome then Except.ok s.build_state
  else Except.ok s.request_state

/-- The template descriptor: the route path, the two render closures
(already composed with string rendering), and the optional capability
slots for build paths, build state, request state, revalidation logic,
a time-based revalidation interval, and state amalgamation. -/
structure Template where
  path : String
  template : Option String → Translator → String
  head : Option String → Translator → String
  get_build_paths_fn : Option (Except GenericErrorWithCause (List String))
  incremental_generation : Bool
  get_build_state_fn : Option (String → Except GenericErrorWithCause String)
  get_request_state_fn : Option (String → Request → Except GenericErrorWithCause String)
  should_revalidate_fn : Option (Except GenericErrorWithCause Bool)
  revalidate_after : Option String
  amalgamate_states_fn : Option (States → Except GenericErrorWithCause (Option String))

/-- Gets the path of the template. -/
def Template.get_path (t : Template) : String := t.path

/-- Gets the interval after which the template will next revalidate. -/
def Template.get_revalidate_interval (t : Template) : Option String :=
  t.revalidate_after

/-- Checks if this template can revalidate existing prerendered pages. -/
def Template.revalidates (t : Template) : Bool :=
  t.should_revalidate_fn.isSome || t.revalidate_after.isSome

/-- Checks if this template revalidates after a given time. -/
def Template.revalidates_with_time (t : Template) : Bool :=
  t.revalidate_after.isSome

/-- Checks if this template revalidates based on given logic. -/
def Template.revalidates_with_logic (t : Template) : Bool :=
  t.should_revalidate_fn.isSome

/-- Checks if this template can render pages beyond its explicit paths. -/
def Template.uses_incremental (t : Template) : Bool :=
  t.incremental_generation

/-- Checks if this template generates paths beneath it. -/
def Template.uses_build_paths (t : Template) : Bool :=
  t.get_build_paths_fn.isSome

/-- Checks if this template needs to do anything on requests for it. -/
def Template.uses_request_state (t : Template) : Bool :=
  t.get_request_state_fn.isSome

/-- Checks if this template needs to do anything at build time. -/
def Template.uses_build_state (t : Template) : Bool :=
  t.get_build_state_fn.isSome

/-- Checks if this template has custom state amalgamation logic. -/
def Template.can_amalgamate_states (t : Template) : Bool :=
  t.amalgamate_states_fn.isSome

/-- Checks if this template defines no rendering logic whatsoever. -/
def Template.is_basic (t : Template) : Bool :=
  !t.uses_build_paths && !t.uses_build_state && !t.uses_request_state
    && !t.revalidates && !t.uses_incremental

/-- Gets the build state for a path, wrapping a generator failure into
`RenderFnFailed` and a missing generator into `TemplateFeatureNotEnabled`. -/
def Template.get_build_state (t : Template) (path : String) :
    Except PerseusError String :=
  match t.get_build_state_fn with
  | some f =>
    match f path with
    | Except.ok res => Except.ok res
    | Except.error e =>
      Except.error (PerseusError.renderFnFailed "get_build_state" t.path e.cause e.error)
  | none =>
    Except.error (PerseusError.templateFeatureNotEnabled t.path "build_state")

/-- Gets the request-time state, with the same failure contract. -/
def Template.get_request_state (t : Template) (path : String) (req : Request) :
    Except PerseusError String :=
  match t.get_request_state_fn with
  | some f =>
    match f path req with
    | Except.ok res => Except.ok res
    | Except.error e =>
      Except.error (PerseusError.renderFnFailed "get_request_state" t.path e.cause e.error)
  | none =>
    Except.error (PerseusError.templateFeatureNotEnabled t.path "request_state")

/-- Runs the user's custom revalidation check, with the same failure
contract. -/
def Template.should_revalidate (t : Template) : Except PerseusError Bool :=
  match t.should_revalidate_fn with
  | some r =>
    match r with
    | Except.ok res => Except.ok res
    | Except.error e =>
      Except.error (PerseusError.renderFnFailed "should_revalidate" t.path e.cause e.error)
  | none =>
    Except.error (PerseusError.templateFeatureNotEnabled t.path "should_revalidate")

/-- Amalgamates the given build and request states; with no registered
amalgamation function this is a `TemplateFeatureNotEnabled` error (whose
feature name the source spells "request_state"). -/
def Template.amalgamate_states (t : Template) (states : States) :
    Except PerseusError (Option String) :=
  match t.amalgamate_states_fn with
  | some f =>
    match f states with
    | Except.ok res => Except.ok res
    | Except.error e =>
      Except.error (PerseusError.renderFnFailed "amalgamate_states" t.path e.cause e.error)
  | none =>
    Except.error (PerseusError.templateFeatureNotEnabled t.path "request_state")

/-- Models the external percent-encoding of a path: `/` becomes `%2F`,
other characters stand unchanged. -/
def urlencode (s : String) : String :=
  String.join (s.data.map (fun c => if c = '/' then "%2F" else String.singleton c))

/-- Decimal parser underlying the timestamp model: `some` of the value
for a nonempty all-digit list, `none` otherwise. -/
def parseDecimal (cs : List Char) (acc : Option Nat) : Option Nat :=
  match cs with
  | [] => acc
  | c :: rest =>
    if c.isDigit then
      parseDecimal rest (some ((acc.getD 0) * 10 + (c.toNat - 48)))
    else none

/-- Models the external RFC 3339 parser over decimally encoded instants:
a string parses to the instant it denotes, or fails to parse. -/
def parse_from_rfc3339 (s : String) : Option Nat := parseDecimal s.data none

/-- Modelled from the spec: the repository declares a `decode_time_str`
module that is absent from the sources at hand; per the spec it turns the
template's interval string into the datetime *current time + interval*
(never the previous schedule plus the interval), failing on an
undecodable interval. Intervals are modelled as decimal second counts. -/
def decode_time_str (time_str : String) (now : Nat) : Except PerseusError String :=
  match parseDecimal time_str.data none with
  | some interval => Except.ok (toString (now + interval))
  | none => Except.error (PerseusError.scheduleDecodeError time_str)

/-- The data necessary to render a page: prerendered HTML content, the
optional serialized state, and the document head string. -/
structure PageData where
  content : String
  state : Option String
  head : String
deriving DecidableEq, Repr

/-- Renders a template that uses state generated at build-time: read the
static HTML and head (any failure is fatal), and the static JSON, whose
read failure of any kind leaves the state absent. -/
def render_build_state (path_encoded : String) (config_manager : ConfigManager) :
    Except PerseusError (String × String × Option String) :=
  match config_manager.read ("static/" ++ path_encoded ++ ".html") with
  | Except.error e => Except.error (PerseusError.storeError e)
  | Except.ok html =>
    match config_manager.read ("static/" ++ path_encoded ++ ".head.html") with
    | Except.error e => Except.error (PerseusError.storeError e)
    | Except.ok head =>
      let state :=
        match config_manager.read ("static/" ++ path_encoded ++ ".json") with
        | Except.ok s => some s
        | Except.error _ => none
      Except.ok (html, head, state)

/-- Renders a template that generates its state at request-time. -/
def render_request_state (template : Template) (translator : Translator)
    (path : String) (req : Request) :
    Except PerseusError (String × String × Option String) :=
  match Template.get_request_state template path req with
  | Except.error e => Except.error e
  | Except.ok state_val =>
    let state := some state_val
    let html := template.template state translator
    let head := template.head state translator
    Except.ok (html, head, state)

/-- Checks if a page of an incrementally generated template has already
been cached. The source reads `static/{path_encoded}.html` a second time
for the head (not `.head.html`) and unwraps it, which the deterministic
store makes the same successful read; a read failure of any kind, or a
debug build, yields `none`. -/
def get_incremental_cached (path_encoded : String) (config_manager : ConfigManager)
    (debug_assertions : Bool) : Option (String × String) :=
  match config_manager.read ("static/" ++ path_encoded ++ ".html") with
  | Except.ok html =>
    if !debug_assertions then
      let head :=
        match config_manager.read ("static/" ++ path_encoded ++ ".html") with
        | Except.ok h => h
        | Except.error _ => ""
      some (html, head)
    else none
  | Except.error _ => none

/-- Checks if a template should revalidate: a configured time gate is
consulted first (a still-future schedule short-circuits to `false`), and
the user's custom logic, when present, then decides the result alone. -/
def should_revalidate (template : Template) (path_encoded : String)
    (config_manager : ConfigManager) (now : Nat) : Except PerseusError Bool :=
  if template.revalidates_with_time then
    match config_manager.read ("static/" ++ path_encoded ++ ".revld.txt") with
    | Except.error e => Except.error (PerseusError.storeError e)
    | Except.ok datetime_to_revalidate_str =>
      match parse_from_rfc3339 datetime_to_revalidate_str with
      | none => Except.error (PerseusError.scheduleDecodeError datetime_to_revalidate_str)
      | some datetime_to_revalidate =>
        if datetime_to_revalidate > now then Except.ok false
        else if template.revalidates_with_logic then
          Template.should_revalidate template
        else Except.ok true
  else if template.revalidates_with_logic then
    Template.should_revalidate template
  else Except.ok false

/-- Revalidates a template: regenerate the build state for the full path
(the template root joined to the sub-path), rerender, rewrite the
schedule (when time-based revalidation is configured) from the current
time, and rewrite the state, HTML and head artifacts. Returns the page
triple, the updated store, and the argument passed to the build-state
generator. -/
def revalidate (template : Template) (translator : Translator)
    (path : String) (path_encoded : String) (config_manager : ConfigManager)
    (now : Nat) :
    Except PerseusError ((String × String × Option String) × ConfigManager × List String) :=
  let arg := template.get_path ++ "/" ++ path
  match Template.get_build_state template arg with
  | Except.error e => Except.error e
  | Except.ok state_val =>
    let state := some state_val
    let html := template.template state translator
    let head := template.head state translator
    let sched_res : Except PerseusError ConfigManager :=
      if template.revalidates_with_time then
        match decode_time_str template.get_revalidate_interval.get! now with
        | Except.error e => Except.error e
        | Except.ok datetime_to_revalidate =>
          Except.ok (config_manager.write
            ("static/" ++ path_encoded ++ ".revld.txt") datetime_to_revalidate)
      else Except.ok config_manager
    match sched_res with
    | Except.error e => Except.error e
    | Except.ok cm1 =>
      let cm2 := cm1.write ("static/" ++ path_encoded ++ ".json") state_val
      let cm3 := cm2.write ("static/" ++ path_encoded ++ ".html") html
      let cm4 := cm3.write ("static/" ++ path_encoded ++ ".head.html") head
      Except.ok ((html, head, state), cm4, [arg])

/-- The amalgamation step closing `get_page_for_template`: a bundle with
at most one defined slot yields that slot, a fully defined bundle is
passed to the template's amalgamation function when one is registered,
and otherwise the request state wins. -/
def amalgamate_step (template : Template) (states : States) :
    Except PerseusError (Option String) :=
  if !states.both_defined then states.get_defined
  else if template.can_amalgamate_states then
    Template.amalgamate_states template states
  else Except.ok states.request_state

/-- The build-side block of `get_page_for_template` (the branch guarded
by `uses_build_state() || is_basic()`): incremental cache resolution with
revalidation or miss regeneration, or the non-incremental revalidation
check and static reads, in the source's branch order. Returns the
build-side HTML, head and optional build state, the updated store, and
the arguments passed to the build-state generator; a template the guard
excludes leaves everything empty. In the source the build-side branches
assign the HTML and head only when the HTML string is still empty; it
always is at that point, nothing having assigned it earlier. -/
def build_phase (template : Template) (translator : Translator)
    (path : String) (path_encoded : String) (config_manager : ConfigManager)
    (now : Nat) (debug_assertions : Bool) :
    Except PerseusError (String × String × Option String × ConfigManager × List String) :=
  if template.uses_build_state || template.is_basic then
    if template.uses_incremental then
          match get_incremental_cached path_encoded config_manager debug_assertions with
          | some (html_val, head_val) =>
            match should_revalidate template path_encoded config_manager now with
            | Except.error e => Except.error e
            | Except.ok true =>
              match revalidate template translator path path_encoded config_manager now with
              | Except.error e => Except.error e
              | Except.ok ((html2, head2, state), cm2, calls2) =>
                Except.ok (html2, head2, state, cm2, calls2)
            | Except.ok false =>
              let state :=
                match config_manager.read ("static/" ++ path_encoded ++ ".json") with
                | Except.ok s => some s
                | Except.error _ => none
              Except.ok (html_val, head_val, state, config_manager, [])
          | none =>
            match Template.get_build_state template path with
            | Except.error e => Except.error e
            | Except.ok state_val =>
              let html_val := template.template (some state_val) translator
              let head_val := template.head (some state_val) translator
              let sched_res : Except PerseusError ConfigManager :=
                if template.revalidates_with_time then
                  match decode_time_str template.get_revalidate_interval.get! now with
                  | Except.error e => Except.error e
                  | Except.ok datetime_to_revalidate =>
                    Except.ok (config_manager.write
                      ("static/" ++ path_encoded ++ ".revld.txt") datetime_to_revalidate)
                else Except.ok config_manager
              match sched_res with
              | Except.error e => Except.error e
              | Except.ok cm1 =>
                let cm2 := cm1.write ("static/" ++ path_encoded ++ ".json") state_val
                let cm3 := cm2.write ("static/" ++ path_encoded ++ ".html") html_val
                let cm4 := cm3.write ("static/" ++ path_encoded ++ ".head.html") head_val
                Except.ok (html_val, head_val, some state_val, cm4, [path])
        else
          match should_revalidate template path_encoded config_manager now with
          | Except.error e => Except.error e
          | Except.ok true =>
            match revalidate template translator path path_encoded config_manager now with
            | Except.error e => Except.error e
            | Except.ok ((html2, head2, state), cm2, calls2) =>
              Except.ok (html2, head2, state, cm2, calls2)
          | Except.ok false =>
            match render_build_state path_encoded config_manager with
            | Except.error e => Except.error e
            | Except.ok (html_val, head_val, state) =>
              Except.ok (html_val, head_val, state, config_manager, [])
  else Except.ok ("", "", none, config_manager, [])

/-- The body of `get_page_for_template` up to (and excluding) the state
amalgamation: resolves the translator, normalizes and encodes the path,
runs the build-side phase, then the request-side phase, whose output
overrides the build-side HTML and head. Returns the final HTML, head and
state bundle, along with the updated store and the list of arguments
passed to the build-state generator. -/
def page_core (raw_path : String) (locale : String) (template : Template)
    (req : Request) (config_manager : ConfigManager)
    (translations_manager : TranslationsManager) (now : Nat)
    (debug_assertions : Bool) :
    Except PerseusError (String × String × States × ConfigManager × List String) :=
  match translations_manager locale with
  | Except.error e => Except.error e
  | Except.ok translator =>
    let path := if raw_path.isEmpty then "index" else raw_path
    let path_encoded := locale ++ "-" ++ urlencode path
    match build_phase template translator path path_encoded config_manager
        now debug_assertions with
    | Except.error e => Except.error e
    | Except.ok (html0, head0, build_state, cm1, calls1) =>
      if template.uses_request_state then
        match render_request_state template translator path req with
        | Except.error e => Except.error e
        | Except.ok (html_val, head_val, request_state) =>
          Except.ok (html_val, head_val,
            { build_state := build_state, request_state := request_state },
            cm1, calls1)
      else
        Except.ok (html0, head0,
          { build_state := build_state, request_state := none }, cm1, calls1)

/-- The internal logic behind `get_page`: the phase of `page_core`
followed by state amalgamation, packaged into the returned `PageData`
(with the updated store and build-state generator call log). -/
def get_page_for_template (raw_path : String) (locale : String)
    (template : Template) (req : Request) (config_manager : ConfigManager)
    (translations_manager : TranslationsManager) (now : Nat)
    (debug_assertions : Bool) :
    Except PerseusError (PageData × ConfigManager × List String) :=
  match page_core raw_path locale template req config_manager
      translations_manager now debug_assertions with
  | Except.error e => Except.error e
  | Except.ok (html, head, states, cm1, calls1) =>
    match amalgamate_step template states with
    | Except.error e => Except.error e
    | Except.ok state =>
      Except.ok ({ content := html, state := state, head := head }, cm1, calls1)

/-- Gets the page data for the given page path: looks the template up by
name (an unknown name is `PageNotFound`) and defers to
`get_page_for_template`. -/
def get_page (raw_path : String) (locale : String) (template_name : String)
    (req : Request) (templates : List (String × Template))
    (config_manager : ConfigManager)
    (translations_manager : TranslationsManager) (now : Nat)
    (debug_assertions : Bool) :
    Except PerseusError (PageData × ConfigManager × List String) :=
  let path := if raw_path.isEmpty then "index" else raw_path
  match templates.lookup template_name with
  | none => Except.error (PerseusError.pageNotFound path)
  | some template =>
    get_page_for_template raw_path locale template req config_manager
      translations_manager now debug_assertions

/-- An empty artifact store. -/
def cmEmpty : ConfigManager := ⟨[]⟩

/-- A translations manager fixture that resolves every locale. -/
def tmOk : TranslationsManager := fun _ => Except.ok "xx-XX"

/-- An incremental template fixture with build state and a 100-second
revalidation interval. -/
def tmplIncr : Template where
  path := "posts"
  template := fun st _ => "R[" ++ st.getD "-" ++ "]"
  head := fun st _ => "H[" ++ st.getD "-" ++ "]"
  get_build_paths_fn := some (Except.ok ["p"])
  incremental_generation := true
  get_build_state_fn := some (fun p => Except.ok ("built:" ++ p))
  get_request_state_fn := none
  should_revalidate_fn := none
  revalidate_after := some "100"
  amalgamate_states_fn := none

/-- A template fixture with build state, request state and a registered
amalgamation function concatenating the two states. -/
def tmplAmalg : Template where
  path := "mix"
  template := fun st _ => "R[" ++ st.getD "-" ++ "]"
  head := fun st _ => "H[" ++ st.getD "-" ++ "]"
  get_build_paths_fn := none
  incremental_generation := false
  get_build_state_fn := some (fun p => Except.ok ("built:" ++ p))
  get_request_state_fn := some (fun p _ => Except.ok ("req:" ++ p))
  should_revalidate_fn := none
  revalidate_after := none
  amalgamate_states_fn := some (fun s =>
    Except.ok (some (s.build_state.getD "" ++ "+" ++ s.request_state.getD "")))

/-- A template fixture that only revalidates with custom logic. -/
def tmplLogic : Template where
  path := "live"
  template := fun st _ => "R[" ++ st.getD "-" ++ "]"
  head := fun st _ => "H[" ++ st.getD "-" ++ "]"
  get_build_paths_fn := none
  incremental_generation := false
  get_build_state_fn := some (fun p => Except.ok ("built:" ++ p))
  get_request_state_fn := none
  should_revalidate_fn := some (Except.ok true)
  revalidate_after := none
  amalgamate_states_fn := none

/-- A template fixture declaring only build paths: it is not basic, yet
neither state slot can ever be filled for it. -/
def tmplPathsOnly : Template where
  path := "docs"
  template := fun st _ => "R[" ++ st.getD "-" ++ "]"
  head := fun st _ => "H[" ++ st.getD "-" ++ "]"
  get_build_paths_fn := some (Except.ok ["a"])
  incremental_generation := false
  get_build_state_fn := none
  get_request_state_fn := none
  should_revalidate_fn := none
  revalidate_after := none
  amalgamate_states_fn := none

/-- A store fixture holding a complete cached page for the artifact key
`en-p` whose revalidation schedule (999) is still in the future. -/
def cmFresh : ConfigManager := ⟨[
  ("static/en-p.html", Except.ok "CONTENT"),
  ("static/en-p.head.html", Except.ok "HEAD"),
  ("static/en-p.json", Except.ok "STATE"),
  ("static/en-p.revld.txt", Except.ok "999")]⟩

/-- A store fixture whose HTML artifact for `en-p` fails to read with a
non-`NotFound` error. -/
def cmReadErr : ConfigManager := ⟨[
  ("static/en-p.html", Except.error (StoreError.readFailed "static/en-p.html" "disk")),
  ("static/en-p.revld.txt", Except.ok "999")]⟩

/-- A store fixture where the page for `en-q` has HTML and head but its
state artifact fails to read with a non-`NotFound` error. -/
def cmJsonErr : ConfigManager := ⟨[
  ("static/en-q.html", Except.ok "A"),
  ("static/en-q.head.html", Except.ok "B"),
  ("static/en-q.json", Except.error (StoreError.readFailed "static/en-q.json" "disk"))]⟩

/-- A store fixture whose revalidation schedule for `en-p` does not parse
as a datetime. -/
def cmBadSched : ConfigManager := ⟨[
  ("static/en-p.html", Except.ok "CONTENT"),
  ("static/en-p.head.html", Except.ok "HEAD"),
  ("static/en-p.json", Except.ok "STATE"),
  ("static/en-p.revld.txt", Except.ok "soon")]⟩

/-- A store fixture holding a complete cached page for the index artifact
key `en-index` whose revalidation schedule (50) is still in the future at
time 7. -/
def cmFreshIdx : ConfigManager := ⟨[
  ("static/en-index.html", Except.ok "ICONTENT"),
  ("static/en-index.head.html", Except.ok "IHEAD"),
  ("static/en-index.json", Except.ok "ISTATE"),
  ("static/en-index.revld.txt", Except.ok "50")]⟩

/-- The store left by revalidating `tmplIncr` for sub-path `p` on an
empty store at time 5: the full template path `posts/p` is fed to the
build-state generator, and the schedule is 5 + 100. -/
def cmRev4 : ConfigManager := ⟨[
  ("static/en-p.head.html", Except.ok "H[built:posts/p]"),
  ("static/en-p.html", Except.ok "R[built:posts/p]"),
  ("static/en-p.json", Except.ok "built:posts/p"),
  ("static/en-p.revld.txt", Except.ok "105")]⟩

/-- The store left by an incremental cache miss of `tmplIncr` for
sub-path `p` on an empty store at time 5: the bare sub-path `p` is fed to
the build-state generator, and the schedule is 5 + 100. -/
def cmMiss4 : ConfigManager := ⟨[
  ("static/en-p.head.html", Except.ok "H[built:p]"),
  ("static/en-p.html", Except.ok "R[built:p]"),
  ("static/en-p.json", Except.ok "built:p"),
  ("static/en-p.revld.txt", Except.ok "105")]⟩

/-- Appending to a fixed string on the left is injective. -/
theorem string_append_right_inj (a s t : String) (h : a ++ s = a ++ t) : s = t := by
  apply String.ext
  have h2 := congrArg String.data h
  rw [String.data_append, String.data_append] at h2
  exact List.append_cancel_left h2

/-- Reading a key straight after writing it yields the written content. -/
theorem ConfigManager.read_write_same (cm : ConfigManager) (k v : String) :
    (cm.write k v).read k = Except.ok v := by
  simp [ConfigManager.read, ConfigManager.write, List.lookup]

/-- Reading a different key after a write is reading the original store. -/
theorem ConfigManager.read_write_other (cm : ConfigManager) (k k2 v : String)
    (h : k2 ≠ k) : (cm.write k v).read k2 = cm.read k2 := by
  have hb : (k2 == k) = false := beq_eq_false_iff_ne.mpr h
  simp [ConfigManager.read, ConfigManager.write, List.lookup, hb]

/-- C1: at the amalgamation step closing `get_page_for_template`, a
bundle with exactly the build state set yields exactly that state and a
bundle with exactly the request state set yields exactly that state,
whatever amalgamation function may be registered; a fully defined bundle
is passed to the registered amalgamation function, whose result (possibly
`none`) is returned; and a fully defined bundle with no registered
function yields the request state. -/
theorem C1_amalgamation_law (t : Template) (states : States) :
    (∀ b, states.build_state = some b → states.request_state = none →
      amalgamate_step t states = Except.ok (some b))
    ∧ (∀ r, states.request_state = some r → states.build_state = none →
      amalgamate_step t states = Except.ok (some r))
    ∧ (∀ f v, t.amalgamate_states_fn = some f →
      states.build_state.isSome = true → states.request_state.isSome = true →
      f states = Except.ok v →
      amalgamate_step t states = Except.ok v)
    ∧ (states.build_state.isSome = true → states.request_state.isSome = true →
      t.can_amalgamate_states = false →
      amalgamate_step t states = Except.ok states.request_state) := by
  refine ⟨?_, ?_, ?_, ?_⟩
  · intro b hb hr
    simp [amalgamate_step, States.both_defined, States.get_defined, hb, hr]
  · intro r hr hb
    simp [amalgamate_step, States.both_defined, States.get_defined, hb, hr]
  · intro f v hf hb hr hv
    have hcan : t.can_amalgamate_states = true := by
      simp [Template.can_amalgamate_states, hf]
    simp [amalgamate_step, States.both_defined, hb, hr, hcan,
      Template.amalgamate_states, hf, hv]
  · intro hb hr hcan
    simp [amalgamate_step, States.both_defined, hb, hr, hcan]

/-- Witness for C1 at concrete bundles: only build state, only request
state, both with the concatenating amalgamation fixture, and both with no
registered function. -/
theorem C1_amalgamation_law_witness :
    amalgamate_step tmplIncr ⟨some "B", none⟩ = Except.ok (some "B")
    ∧ amalgamate_step tmplIncr ⟨none, some "R2"⟩ = Except.ok (some "R2")
    ∧ amalgamate_step tmplAmalg ⟨some "B", some "R2"⟩ = Except.ok (some "B+R2")
    ∧ amalgamate_step tmplPathsOnly ⟨some "B", some "R2"⟩ = Except.ok (some "R2") :=
  ⟨(C1_amalgamation_law tmplIncr ⟨some "B", none⟩).1 "B" rfl rfl,
   (C1_amalgamation_law tmplIncr ⟨none, some "R2"⟩).2.1 "R2" rfl rfl,
   (C1_amalgamation_law tmplAmalg ⟨some "B", some "R2"⟩).2.2.1 _ (some "B+R2") rfl rfl rfl rfl,
   (C1_amalgamation_law tmplPathsOnly ⟨some "B", some "R2"⟩).2.2.2 rfl rfl rfl⟩

/-- C2 (code bug): on a cached incremental page whose revalidation
decision is FRESH, the returned head is the contents of the `{key}.html`
artifact rather than the separately stored `{key}.head.html` artifact:
the source reads `static/{key}.html` a second time where it means to read
the head. At this input the store holds head artifact "HEAD", yet the
returned pair is ("CONTENT", "CONTENT"); the state is correctly re-read
from `{key}.json`. -/
theorem C2_fresh_cache_head_bug :
    get_page_for_template "p" "en" tmplIncr "req" cmFresh tmOk 0 false
      = Except.ok ({ content := "CONTENT", state := some "STATE", head := "CONTENT" },
          cmFresh, [])
    ∧ cmFresh.read "static/en-p.head.html" = Except.ok "HEAD" :=
  ⟨rfl, rfl⟩

/-- C3: a stored schedule parsing to an instant strictly later than the
current time short-circuits `should_revalidate` to `false` whatever
revalidation logic the template registers; and when the template
revalidates with logic and the time gate passes (or no time-based
revalidation is configured), the user's `should_revalidate` call alone
decides the result. -/
theorem C3_time_gate_and_logic (t : Template) (pe : String) (cm : ConfigManager)
    (now sched : Nat) (s : String) :
    (t.revalidates_with_time = true →
      cm.read ("static/" ++ pe ++ ".revld.txt") = Except.ok s →
      parse_from_rfc3339 s = some sched → now < sched →
      should_revalidate t pe cm now = Except.ok false)
    ∧ (t.revalidates_with_logic = true →
      (t.revalidates_with_time = false ∨
        (cm.read ("static/" ++ pe ++ ".revld.txt") = Except.ok s ∧
          parse_from_rfc3339 s = some sched ∧ sched ≤ now)) →
      should_revalidate t pe cm now = Template.should_revalidate t) := by
  constructor
  · intro ht hr hp hlt
    have hgt : sched > now := hlt
    simp [should_revalidate, ht, hr, hp, hgt]
  · intro hl hor
    rcases hor with hf | ⟨hr, hp, hle⟩
    · simp [should_revalidate, hf, hl]
    · have hngt : ¬sched > now := by omega
      by_cases ht : t.revalidates_with_time = true
      · simp [should_revalidate, ht, hr, hp, hngt, hl]
      · simp only [Bool.not_eq_true] at ht
        simp [should_revalidate, ht, hl]

/-- Witness for C3: the future schedule of the `cmFresh` fixture gates
revalidation off, and the logic-only fixture defers to its own check. -/
theorem C3_witness :
    should_revalidate tmplIncr "en-p" cmFresh 0 = Except.ok false
    ∧ should_revalidate tmplLogic "en-p" cmEmpty 0
        = Template.should_revalidate tmplLogic :=
  ⟨(C3_time_gate_and_logic tmplIncr "en-p" cmFresh 0 999 "999").1 rfl rfl rfl
      (by decide),
   (C3_time_gate_and_logic tmplLogic "en-p" cmEmpty 0 0 "").2 rfl (Or.inl rfl)⟩

/-- C6 counterexample: the HTML artifact for `en-p` fails to read with a
non-`NotFound` error (`ReadFailed`), yet `get_page_for_template` treats
this as a cache miss and regenerates the page successfully instead of
failing the request. -/
theorem C6_counterexample :
    cmReadErr.read "static/en-p.html"
      = Except.error (StoreError.readFailed "static/en-p.html" "disk")
    ∧ get_page_for_template "p" "en" tmplIncr "req" cmReadErr tmOk 0 false
      = Except.ok ({ content := "R[built:p]", state := some "built:p", head := "H[built:p]" },
          ⟨("static/en-p.head.html", Except.ok "H[built:p]") ::
            ("static/en-p.html", Except.ok "R[built:p]") ::
            ("static/en-p.json", Except.ok "built:p") ::
            ("static/en-p.revld.txt", Except.ok "100") :: cmReadErr.entries⟩,
          ["p"]) :=
  ⟨rfl, rfl⟩

/-- C6 as amended: in the incremental cache-hit decision and in the
cached-state re-read, every store read failure — `NotFound`-class or
otherwise — is interpreted as a cache miss or as absent state; a read
error in those places never fails the request. -/
theorem C6_read_errors_treated_as_miss (pe : String) (cm : ConfigManager)
    (dbg : Bool) (e : StoreError) :
    (cm.read ("static/" ++ pe ++ ".html") = Except.error e →
      get_incremental_cached pe cm dbg = none)
    ∧ (∀ html_val head_val,
        cm.read ("static/" ++ pe ++ ".html") = Except.ok html_val →
        cm.read ("static/" ++ pe ++ ".head.html") = Except.ok head_val →
        cm.read ("static/" ++ pe ++ ".json") = Except.error e →
        render_build_state pe cm = Except.ok (html_val, head_val, none)) := by
  constructor
  · intro h
    unfold get_incremental_cached
    rw [h]
  · intro html_val head_val h1 h2 h3
    unfold render_build_state
    rw [h1, h2, h3]

/-- Witness for the amended C6 at the two read-error fixtures. -/
theorem C6_read_errors_treated_as_miss_witness :
    get_incremental_cached "en-p" cmReadErr false = none
    ∧ render_build_state "en-q" cmJsonErr = Except.ok ("A", "B", none) :=
  ⟨(C6_read_errors_treated_as_miss "en-p" cmReadErr false
      (StoreError.readFailed "static/en-p.html" "disk")).1 rfl,
   (C6_read_errors_treated_as_miss "en-q" cmJsonErr false
      (StoreError.readFailed "static/en-q.json" "disk")).2 "A" "B" rfl rfl rfl⟩

/-- C7: a stored revalidation schedule that exists but does not parse
fails `should_revalidate` with the schedule-decode error; it is never
treated as fresh or as never-revalidate. -/
theorem C7_corrupted_schedule_fatal (t : Template) (pe : String)
    (cm : ConfigManager) (now : Nat) (s : String)
    (ht : t.revalidates_with_time = true)
    (hr : cm.read ("static/" ++ pe ++ ".revld.txt") = Except.ok s)
    (hp : parse_from_rfc3339 s = none) :
    should_revalidate t pe cm now
      = Except.error (PerseusError.scheduleDecodeError s) := by
  simp [should_revalidate, ht, hr, hp]

/-- Witness for C7: the fixture whose stored schedule is "soon". -/
theorem C7_corrupted_schedule_fatal_witness :
    should_revalidate tmplIncr "en-p" cmBadSched 0
      = Except.error (PerseusError.scheduleDecodeError "soon") :=
  C7_corrupted_schedule_fatal tmplIncr "en-p" cmBadSched 0 "soon" rfl rfl rfl

/-- C8 counterexample: the build-paths-only fixture is not basic, yet
`get_page_for_template` completes successfully for it with neither
`build_state` nor `request_state` set in the final bundle. -/
theorem C8_counterexample :
    tmplPathsOnly.is_basic = false
    ∧ page_core "p" "en" tmplPathsOnly "req" cmEmpty tmOk 0 false
      = Except.ok ("", "", ⟨none, none⟩, cmEmpty, [])
    ∧ get_page_for_template "p" "en" tmplPathsOnly "req" cmEmpty tmOk 0 false
      = Except.ok ({ content := "", state := none, head := "" }, cmEmpty, []) :=
  ⟨rfl, rfl, rfl⟩

/-- A successful request-state render always carries a present state. -/
theorem render_request_state_isSome (t : Template) (tr : Translator)
    (path : String) (req : Request) (h0 d0 : String) (st : Option String)
    (h : render_request_state t tr path req = Except.ok (h0, d0, st)) :
    st.isSome = true := by
  unfold render_request_state at h
  split at h
  · exact absurd h (by simp)
  · simp only [Except.ok.injEq, Prod.mk.injEq] at h
    obtain ⟨-, -, h3⟩ := h
    rw [← h3]
    rfl

/-- A successful revalidation always carries a present state. -/
theorem revalidate_state_isSome (t : Template) (tr : Translator)
    (p pe : String) (cm : ConfigManager) (now : Nat)
    (h2 d2 : String) (st : Option String) (cm2 : ConfigManager)
    (calls : List String)
    (h : revalidate t tr p pe cm now = Except.ok ((h2, d2, st), cm2, calls)) :
    st.isSome = true := by
  simp only [revalidate] at h
  cases hgbs : Template.get_build_state t (t.get_path ++ "/" ++ p) with
  | error e => rw [hgbs] at h; exact absurd h (by simp)
  | ok sv =>
    rw [hgbs] at h
    by_cases ht : t.revalidates_with_time = true
    · simp only [ht, if_true] at h
      cases hdt : decode_time_str t.get_revalidate_interval.get! now with
      | error e => rw [hdt] at h; exact absurd h (by simp)
      | ok d =>
        rw [hdt] at h
        simp only [Except.ok.injEq, Prod.mk.injEq] at h
        obtain ⟨⟨-, -, h3⟩, -, -⟩ := h
        rw [← h3]
        rfl
    · simp only [Bool.not_eq_true] at ht
      simp only [ht, Bool.false_eq_true, if_false] at h
      simp only [Except.ok.injEq, Prod.mk.injEq] at h
      obtain ⟨⟨-, -, h3⟩, -, -⟩ := h
      rw [← h3]
      rfl

/-- The state of a successful static build-state render is the state
artifact read, whatever its outcome. -/
theorem render_build_state_inv (pe : String) (cm : ConfigManager)
    (h0 d0 : String) (st : Option String)
    (h : render_build_state pe cm = Except.ok (h0, d0, st)) :
    st = (cm.read ("static/" ++ pe ++ ".json")).toOption := by
  unfold render_build_state at h
  split at h
  · exact absurd h (by simp)
  · split at h
    · exact absurd h (by simp)
    · simp only [Except.ok.injEq, Prod.mk.injEq] at h
      obtain ⟨-, -, h3⟩ := h
      rw [← h3]
      cases cm.read ("static/" ++ pe ++ ".json") <;> rfl

/-- Inversion of `page_core`: a successful run resolves the translator,
runs the build phase (whose state lands in the `build_state` slot and
whose store and call log are final), and either skips the request phase
(no request state, build HTML and head survive) or runs it (its HTML,
head and state are final). -/
theorem page_core_inv (raw_path locale : String) (t : Template) (req : Request)
    (cm : ConfigManager) (tm : TranslationsManager) (now : Nat) (dbg : Bool)
    (html_s head_s : String) (states : States) (cm2 : ConfigManager)
    (calls : List String)
    (h : page_core raw_path locale t req cm tm now dbg
      = Except.ok (html_s, head_s, states, cm2, calls)) :
    ∃ tr html0 head0,
      tm locale = Except.ok tr
      ∧ build_phase t tr (if raw_path.isEmpty then "index" else raw_path)
          (locale ++ "-" ++ urlencode (if raw_path.isEmpty then "index" else raw_path))
          cm now dbg = Except.ok (html0, head0, states.build_state, cm2, calls)
      ∧ ((t.uses_request_state = false ∧ states.request_state = none
            ∧ html_s = html0 ∧ head_s = head0)
        ∨ (t.uses_request_state = true
            ∧ render_request_state t tr (if raw_path.isEmpty then "index" else raw_path) req
              = Except.ok (html_s, head_s, states.request_state))) := by
  simp only [page_core] at h
  cases htm : tm locale with
  | error e => rw [htm] at h; exact absurd h (by simp)
  | ok tr =>
    rw [htm] at h
    simp only [] at h
    cases hbp : build_phase t tr (if raw_path.isEmpty then "index" else raw_path)
        (locale ++ "-" ++ urlencode (if raw_path.isEmpty then "index" else raw_path))
        cm now dbg with
    | error e => rw [hbp] at h; exact absurd h (by simp)
    | ok quint =>
      obtain ⟨html0, head0, bs, cm1, calls1⟩ := quint
      rw [hbp] at h
      simp only [] at h
      by_cases hrq : t.uses_request_state = true
      · simp only [hrq, if_true] at h
        cases hrrs : render_request_state t tr
            (if raw_path.isEmpty then "index" else raw_path) req with
        | error e => rw [hrrs] at h; exact absurd h (by simp)
        | ok trip =>
          obtain ⟨hv, dv, rst⟩ := trip
          rw [hrrs] at h
          simp only [Except.ok.injEq, Prod.mk.injEq] at h
          obtain ⟨h1, h2, h3, h4, h5⟩ := h
          refine ⟨tr, html0, head0, rfl, ?_, Or.inr ⟨hrq, ?_⟩⟩
          · rw [← h3, ← h4, ← h5]
            exact hbp
          · rw [← h3, ← h1, ← h2]
            exact hrrs
      · simp only [Bool.not_eq_true] at hrq
        simp only [hrq, Bool.false_eq_true, if_false] at h
        simp only [Except.ok.injEq, Prod.mk.injEq] at h
        obtain ⟨h1, h2, h3, h4, h5⟩ := h
        refine ⟨tr, html0, head0, rfl, ?_, Or.inl ⟨hrq, ?_, h1.symm, h2.symm⟩⟩
        · rw [← h3, ← h4, ← h5]
          exact hbp
        · rw [← h3]

/-- For a template using build state, a successful build phase fills the
build-state slot whenever the state artifact for the key is readable. -/
theorem build_phase_state_isSome (t : Template) (tr path pe : String)
    (cm : ConfigManager) (now : Nat) (dbg : Bool)
    (h0 d0 : String) (bs : Option String) (cm1 : ConfigManager)
    (calls1 : List String)
    (hbs : t.uses_build_state = true)
    (hjson : ∃ s, cm.read ("static/" ++ pe ++ ".json") = Except.ok s)
    (h : build_phase t tr path pe cm now dbg = Except.ok (h0, d0, bs, cm1, calls1)) :
    bs.isSome = true := by
  obtain ⟨s, hjson⟩ := hjson
  simp only [build_phase, hbs, Bool.true_or, if_true] at h
  by_cases hinc : t.uses_incremental = true
  · simp only [hinc, if_true] at h
    cases hic : get_incremental_cached pe cm dbg with
    | some pair =>
      obtain ⟨hv, dv⟩ := pair
      rw [hic] at h
      simp only [] at h
      cases hsr : should_revalidate t pe cm now with
      | error e => rw [hsr] at h; exact absurd h (by simp)
      | ok b =>
        rw [hsr] at h
        cases b with
        | true =>
          simp only [] at h
          cases hrv : revalidate t tr path pe cm now with
          | error e => rw [hrv] at h; exact absurd h (by simp)
          | ok trip =>
            obtain ⟨⟨h2, d2, st⟩, cm2, calls2⟩ := trip
            rw [hrv] at h
            simp only [Except.ok.injEq, Prod.mk.injEq] at h
            obtain ⟨-, -, h3, -, -⟩ := h
            rw [← h3]
            exact revalidate_state_isSome t tr path pe cm now h2 d2 st cm2 calls2 hrv
        | false =>
          simp only [hjson] at h
          simp only [Except.ok.injEq, Prod.mk.injEq] at h
          obtain ⟨-, -, h3, -, -⟩ := h
          rw [← h3]
          rfl
    | none =>
      rw [hic] at h
      simp only [] at h
      cases hgbs : Template.get_build_state t path with
      | error e => rw [hgbs] at h; exact absurd h (by simp)
      | ok sv =>
        rw [hgbs] at h
        by_cases ht : t.revalidates_with_time = true
        · simp only [ht, if_true] at h
          cases hdt : decode_time_str t.get_revalidate_interval.get! now with
          | error e => rw [hdt] at h; exact absurd h (by simp)
          | ok d =>
            rw [hdt] at h
            simp only [Except.ok.injEq, Prod.mk.injEq] at h
            obtain ⟨-, -, h3, -, -⟩ := h
            rw [← h3]
            rfl
        · simp only [Bool.not_eq_true] at ht
          simp only [ht, Bool.false_eq_true, if_false] at h
          simp only [Except.ok.injEq, Prod.mk.injEq] at h
          obtain ⟨-, -, h3, -, -⟩ := h
          rw [← h3]
          rfl
  · simp only [Bool.not_eq_true] at hinc
    simp only [hinc, Bool.false_eq_true, if_false] at h
    cases hsr : should_revalidate t pe cm now with
    | error e => rw [hsr] at h; exact absurd h (by simp)
    | ok b =>
      rw [hsr] at h
      cases b with
      | true =>
        simp only [] at h
        cases hrv : revalidate t tr path pe cm now with
        | error e => rw [hrv] at h; exact absurd h (by simp)
        | ok trip =>
          obtain ⟨⟨h2, d2, st⟩, cm2, calls2⟩ := trip
          rw [hrv] at h
          simp only [Except.ok.injEq, Prod.mk.injEq] at h
          obtain ⟨-, -, h3, -, -⟩ := h
          rw [← h3]
          exact revalidate_state_isSome t tr path pe cm now h2 d2 st cm2 calls2 hrv
      | false =>
        simp only [] at h
        cases hrbs : render_build_state pe cm with
        | error e => rw [hrbs] at h; exact absurd h (by simp)
        | ok trip =>
          obtain ⟨hv, dv, st⟩ := trip
          rw [hrbs] at h
          simp only [Except.ok.injEq, Prod.mk.injEq] at h
          obtain ⟨-, -, h3, -, -⟩ := h
          have hst := render_build_state_inv pe cm hv dv st hrbs
          rw [← h3, hst, hjson]
          rfl

/-- Distinct suffixes give distinct artifact keys for the same root. -/
theorem static_key_ne (pe : String) (s1 s2 : String) (hne : s1 ≠ s2) :
    ("static/" ++ pe ++ s1) ≠ ("static/" ++ pe ++ s2) :=
  fun he => hne (string_append_right_inj ("static/" ++ pe) s1 s2 he)

/-- After the four regeneration writes, the schedule key reads back the
schedule just written. -/
theorem read_after_cache_writes (cm : ConfigManager) (pe d j hh hd : String) :
    ((((cm.write ("static/" ++ pe ++ ".revld.txt") d).write
      ("static/" ++ pe ++ ".json") j).write
      ("static/" ++ pe ++ ".html") hh).write
      ("static/" ++ pe ++ ".head.html") hd).read
      ("static/" ++ pe ++ ".revld.txt") = Except.ok d := by
  rw [ConfigManager.read_write_other _ _ _ _
        (static_key_ne pe ".revld.txt" ".head.html" (by decide)),
      ConfigManager.read_write_other _ _ _ _
        (static_key_ne pe ".revld.txt" ".html" (by decide)),
      ConfigManager.read_write_other _ _ _ _
        (static_key_ne pe ".revld.txt" ".json" (by decide)),
      ConfigManager.read_write_same]

/-- A bundle with no request state amalgamates to its build slot. -/
theorem amalgamate_step_no_request (t : Template) (b : Option String) :
    amalgamate_step t ⟨b, none⟩ = Except.ok b := by
  cases b <;> simp [amalgamate_step, States.both_defined, States.get_defined]

/-- The build phase of a cached incremental page whose revalidation
decision is FRESH (in a release build): the cached pair and the re-read
state artifact come back, the store is untouched and no generator runs. -/
theorem build_phase_fresh (t : Template) (tr path pe : String)
    (cm : ConfigManager) (now : Nat) (hv dv : String)
    (hbs : t.uses_build_state = true)
    (hinc : t.uses_incremental = true)
    (hic : get_incremental_cached pe cm false = some (hv, dv))
    (hsr : should_revalidate t pe cm now = Except.ok false) :
    build_phase t tr path pe cm now false
      = Except.ok (hv, dv, (cm.read ("static/" ++ pe ++ ".json")).toOption, cm, []) := by
  simp only [build_phase, hbs, Bool.true_or, if_true, hinc, hic, hsr]
  cases cm.read ("static/" ++ pe ++ ".json") <;> rfl

/-- The build phase of an incremental cache miss: the build-state
generator is called on the bare sub-path, and if a parseable time-based
interval is configured, the schedule key ends holding `now + interval`. -/
theorem build_phase_miss (t : Template) (tr path pe : String)
    (cm : ConfigManager) (now : Nat) (dbg : Bool)
    (h0 d0 : String) (bs : Option String) (cm1 : ConfigManager)
    (calls1 : List String)
    (hbs : t.uses_build_state = true) (hinc : t.uses_incremental = true)
    (hic : get_incremental_cached pe cm dbg = none)
    (h : build_phase t tr path pe cm now dbg = Except.ok (h0, d0, bs, cm1, calls1)) :
    calls1 = [path]
    ∧ ∀ i iv, t.revalidate_after = some i → parseDecimal i.data none = some iv →
        cm1.read ("static/" ++ pe ++ ".revld.txt") = Except.ok (toString (now + iv)) := by
  simp only [build_phase, hbs, Bool.true_or, if_true, hinc, hic] at h
  cases hgbs : Template.get_build_state t path with
  | error e => rw [hgbs] at h; exact absurd h (by simp)
  | ok sv =>
    rw [hgbs] at h
    by_cases ht : t.revalidates_with_time = true
    · simp only [ht, if_true] at h
      cases hdt : decode_time_str t.get_revalidate_interval.get! now with
      | error e => rw [hdt] at h; exact absurd h (by simp)
      | ok d =>
        rw [hdt] at h
        simp only [Except.ok.injEq, Prod.mk.injEq] at h
        obtain ⟨-, -, -, h4, h5⟩ := h
        refine ⟨h5.symm, ?_⟩
        intro i iv hi hiv
        have hd2 : d = toString (now + iv) := by
          simp [decode_time_str, Template.get_revalidate_interval, hi, Option.get!,
            hiv] at hdt
          exact hdt.symm
        rw [← h4, hd2]
        exact read_after_cache_writes cm pe _ _ _ _
    · simp only [Bool.not_eq_true] at ht
      simp only [ht, Bool.false_eq_true, if_false] at h
      simp only [Except.ok.injEq, Prod.mk.injEq] at h
      obtain ⟨-, -, -, h4, h5⟩ := h
      refine ⟨h5.symm, ?_⟩
      intro i iv hi hiv
      exfalso
      rw [Template.revalidates_with_time, hi] at ht
      simp at ht

/-- C4: whenever regeneration runs at time `now` for a template with a
parseable time-based interval — by the `revalidate` routine or on an
incremental cache miss — the schedule left in `{key}.revld.txt` is
`now + interval`, whatever schedule (if any) the store held before, so
missed windows never accumulate. -/
theorem C4_revalidation_schedule_from_now (t : Template)
    (raw_path locale tr p pe : String) (req : Request) (cm : ConfigManager)
    (tm : TranslationsManager) (now : Nat) (dbg : Bool) (i : String) (iv : Nat)
    (hi : t.revalidate_after = some i)
    (hiv : parseDecimal i.data none = some iv) :
    (∀ r cm2 calls, revalidate t tr p pe cm now = Except.ok (r, cm2, calls) →
      cm2.read ("static/" ++ pe ++ ".revld.txt") = Except.ok (toString (now + iv)))
    ∧ (t.uses_build_state = true → t.uses_incremental = true →
      pe = locale ++ "-" ++ urlencode (if raw_path.isEmpty then "index" else raw_path) →
      get_incremental_cached pe cm dbg = none →
      ∀ html_s head_s states cm2 calls,
        page_core raw_path locale t req cm tm now dbg
          = Except.ok (html_s, head_s, states, cm2, calls) →
        cm2.read ("static/" ++ pe ++ ".revld.txt") = Except.ok (toString (now + iv))) := by
  have ht : t.revalidates_with_time = true := by
    simp [Template.revalidates_with_time, hi]
  have hdt : decode_time_str t.get_revalidate_interval.get! now
      = Except.ok (toString (now + iv)) := by
    simp [Template.get_revalidate_interval, hi, Option.get!, decode_time_str, hiv]
  constructor
  · intro r cm2 calls h
    simp only [revalidate] at h
    cases hgbs : Template.get_build_state t (t.get_path ++ "/" ++ p) with
    | error e => rw [hgbs] at h; exact absurd h (by simp)
    | ok sv =>
      rw [hgbs] at h
      simp only [ht, if_true, hdt] at h
      simp only [Except.ok.injEq, Prod.mk.injEq] at h
      obtain ⟨-, h4, -⟩ := h
      rw [← h4]
      exact read_after_cache_writes cm pe _ _ _ _
  · intro hbs hinc hpe hic html_s head_s states cm2 calls h
    subst hpe
    obtain ⟨tr2, html0, head0, -, hbp, -⟩ :=
      page_core_inv raw_path locale t req cm tm now dbg html_s head_s states
        cm2 calls h
    exact (build_phase_miss t tr2
      (if raw_path.isEmpty then "index" else raw_path)
      (locale ++ "-" ++ urlencode (if raw_path.isEmpty then "index" else raw_path))
      cm now dbg html0 head0 states.build_state cm2 calls hbs hinc hic hbp).2
      i iv hi hiv

/-- Witness for C4: revalidating the incremental fixture and missing its
cache at time 5 both leave schedule 105 = 5 + 100, on a store that held
no previous schedule at all. -/
theorem C4_revalidation_schedule_from_now_witness :
    cmRev4.read "static/en-p.revld.txt" = Except.ok "105"
    ∧ cmMiss4.read "static/en-p.revld.txt" = Except.ok "105" :=
  ⟨(C4_revalidation_schedule_from_now tmplIncr "p" "en" "xx-XX" "p" "en-p" "req"
      cmEmpty tmOk 5 false "100" 100 rfl rfl).1
      ("R[built:posts/p]", "H[built:posts/p]", some "built:posts/p") cmRev4
      ["posts/p"] rfl,
   (C4_revalidation_schedule_from_now tmplIncr "p" "en" "xx-XX" "p" "en-p" "req"
      cmEmpty tmOk 5 false "100" 100 rfl rfl).2 rfl rfl rfl rfl
      "R[built:p]" "H[built:p]" ⟨some "built:p", none⟩ cmMiss4 ["p"] rfl⟩

/-- C5: for a template using request state, a successful
`get_page_for_template` returns exactly the content and head produced by
the request-time render, overriding whatever the build-side phase
produced in the same call. -/
theorem C5_request_state_overrides (raw_path locale : String) (t : Template)
    (req : Request) (cm : ConfigManager) (tm : TranslationsManager)
    (now : Nat) (dbg : Bool) (tr : Translator)
    (pd : PageData) (cm2 : ConfigManager) (calls : List String)
    (html_val head_val : String) (rstate : Option String)
    (hrq : t.uses_request_state = true)
    (htm : tm locale = Except.ok tr)
    (hrrs : render_request_state t tr (if raw_path.isEmpty then "index" else raw_path) req
      = Except.ok (html_val, head_val, rstate))
    (h : get_page_for_template raw_path locale t req cm tm now dbg
      = Except.ok (pd, cm2, calls)) :
    pd.content = html_val ∧ pd.head = head_val := by
  unfold get_page_for_template at h
  split at h
  · exact absurd h (by simp)
  · rename_i html_s head_s states cm1 calls1 heq
    split at h
    · exact absurd h (by simp)
    · simp only [Except.ok.injEq, Prod.mk.injEq] at h
      obtain ⟨hpd, -, -⟩ := h
      obtain ⟨tr2, html0, head0, htm2, -, hcase⟩ :=
        page_core_inv raw_path locale t req cm tm now dbg html_s head_s states
          cm1 calls1 heq
      rcases hcase with ⟨hfalse, -⟩ | ⟨-, hrrs2⟩
      · simp [hfalse] at hrq
      · rw [htm] at htm2
        simp only [Except.ok.injEq] at htm2
        subst htm2
        rw [hrrs] at hrrs2
        simp only [Except.ok.injEq, Prod.mk.injEq] at hrrs2
        obtain ⟨hh, hd, -⟩ := hrrs2
        rw [← hpd]
        exact ⟨hh.symm, hd.symm⟩

/-- Witness for C5: the amalgamating fixture over the cached store:
request-time content and head win over the cached "CONTENT"/"HEAD". -/
theorem C5_request_state_overrides_witness :
    (PageData.mk "R[req:p]" (some "STATE+req:p") "H[req:p]").content = "R[req:p]"
    ∧ (PageData.mk "R[req:p]" (some "STATE+req:p") "H[req:p]").head = "H[req:p]" :=
  C5_request_state_overrides "p" "en" tmplAmalg "req" cmFresh tmOk 0 false "xx-XX"
    (PageData.mk "R[req:p]" (some "STATE+req:p") "H[req:p]") cmFresh []
    "R[req:p]" "H[req:p]" (some "req:p") rfl rfl rfl rfl

/-- C8 as amended: when a successful `page_core` run belongs to a
template that uses request state, or to one that uses build state while
the state artifact for the key is readable, at least one slot of the
final bundle is set; and the amalgamation step consults the registered
amalgamation function only when both slots are set (otherwise it is the
plain defined-slot selection). -/
theorem C8_state_presence_amended (raw_path locale : String) (t : Template)
    (req : Request) (cm : ConfigManager) (tm : TranslationsManager)
    (now : Nat) (dbg : Bool) (html_s head_s : String) (states : States)
    (cm2 : ConfigManager) (calls : List String)
    (h : page_core raw_path locale t req cm tm now dbg
      = Except.ok (html_s, head_s, states, cm2, calls))
    (huse : t.uses_request_state = true ∨
      (t.uses_build_state = true ∧
        ∃ s, cm.read ("static/" ++ (locale ++ "-" ++
          urlencode (if raw_path.isEmpty then "index" else raw_path)) ++ ".json")
          = Except.ok s)) :
    (states.build_state.isSome || states.request_state.isSome) = true
    ∧ ∀ t2 : Template, ∀ st : States, st.both_defined = false →
        amalgamate_step t2 st = st.get_defined := by
  constructor
  · obtain ⟨tr, html0, head0, htm, hbp, hcase⟩ :=
      page_core_inv raw_path locale t req cm tm now dbg html_s head_s states
        cm2 calls h
    rcases huse with hrq | ⟨hbs, hjson⟩
    · rcases hcase with ⟨hfalse, -⟩ | ⟨-, hrrs⟩
      · simp [hfalse] at hrq
      · have hsome := render_request_state_isSome t tr
          (if raw_path.isEmpty then "index" else raw_path) req html_s head_s
          states.request_state hrrs
        simp [hsome]
    · have hsome := build_phase_state_isSome t tr
        (if raw_path.isEmpty then "index" else raw_path)
        (locale ++ "-" ++ urlencode (if raw_path.isEmpty then "index" else raw_path))
        cm now dbg html0 head0 states.build_state cm2 calls hbs hjson hbp
      simp [hsome]
  · intro t2 st hbd
    simp [amalgamate_step, hbd]

/-- Witness for the amended C8: the FRESH serve of the incremental
fixture fills the build slot from the readable state artifact. -/
theorem C8_state_presence_amended_witness :
    ((States.mk (some "STATE") none).build_state.isSome
      || (States.mk (some "STATE") none).request_state.isSome) = true :=
  (C8_state_presence_amended "p" "en" tmplIncr "req" cmFresh tmOk 0 false
    "CONTENT" "CONTENT" (States.mk (some "STATE") none) cmFresh [] rfl
    (Or.inr ⟨rfl, "STATE", rfl⟩)).1

/-- C9: serving a cached incremental page in a release build with the
revalidation decision FRESH and no request state returns the cached pair
and re-read state while leaving the store exactly as it was — no write is
issued to any key — and the build-state generator is never invoked. -/
theorem C9_fresh_hit_leaves_store_unchanged (raw_path locale : String)
    (t : Template) (req : Request) (cm : ConfigManager)
    (tm : TranslationsManager) (tr : Translator) (now : Nat) (hv dv : String)
    (hbs : t.uses_build_state = true)
    (hinc : t.uses_incremental = true)
    (hrq : t.uses_request_state = false)
    (htm : tm locale = Except.ok tr)
    (hic : get_incremental_cached
      (locale ++ "-" ++ urlencode (if raw_path.isEmpty then "index" else raw_path)) cm false
      = some (hv, dv))
    (hsr : should_revalidate t
      (locale ++ "-" ++ urlencode (if raw_path.isEmpty then "index" else raw_path)) cm now
      = Except.ok false) :
    get_page_for_template raw_path locale t req cm tm now false
      = Except.ok
        ({ content := hv,
           state := (cm.read ("static/" ++ (locale ++ "-" ++
             urlencode (if raw_path.isEmpty then "index" else raw_path)) ++ ".json")).toOption,
           head := dv }, cm, []) := by
  have hbp := build_phase_fresh t tr
    (if raw_path.isEmpty then "index" else raw_path)
    (locale ++ "-" ++ urlencode (if raw_path.isEmpty then "index" else raw_path))
    cm now hv dv hbs hinc hic hsr
  simp only [get_page_for_template, page_core, htm, hbp, hrq, Bool.false_eq_true,
    if_false, amalgamate_step_no_request]

/-- Witness for C9: a FRESH serve of the index page of the incremental
fixture at time 7 returns the cached artifacts and the identical store. -/
theorem C9_fresh_hit_leaves_store_unchanged_witness :
    get_page_for_template "" "en" tmplIncr "req" cmFreshIdx tmOk 7 false
      = Except.ok ({ content := "ICONTENT", state := some "ISTATE", head := "ICONTENT" },
          cmFreshIdx, []) :=
  C9_fresh_hit_leaves_store_unchanged "" "en" tmplIncr "req" cmFreshIdx tmOk
    "xx-XX" 7 "ICONTENT" "ICONTENT" rfl rfl rfl rfl rfl rfl

/-- C10: the `revalidate` routine feeds the build-state generator the
template root joined to the sub-path, while an incremental cache miss
feeds it the bare sub-path; the two arguments always differ, so the two
regeneration routines agree only for generators insensitive to that
difference. -/
theorem C10_regeneration_path_arguments (t : Template)
    (raw_path locale tr p pe : String) (req : Request) (cm : ConfigManager)
    (tm : TranslationsManager) (now : Nat) (dbg : Bool) :
    (∀ r cm2 calls, revalidate t tr p pe cm now = Except.ok (r, cm2, calls) →
      calls = [t.get_path ++ "/" ++ p])
    ∧ (t.uses_build_state = true → t.uses_incremental = true →
      get_incremental_cached (locale ++ "-" ++
        urlencode (if raw_path.isEmpty then "index" else raw_path)) cm dbg = none →
      ∀ html_s head_s states cm2 calls,
        page_core raw_path locale t req cm tm now dbg
          = Except.ok (html_s, head_s, states, cm2, calls) →
        calls = [if raw_path.isEmpty then "index" else raw_path])
    ∧ t.get_path ++ "/" ++ p ≠ p := by
  refine ⟨?_, ?_, ?_⟩
  · intro r cm2 calls h
    simp only [revalidate] at h
    cases hgbs : Template.get_build_state t (t.get_path ++ "/" ++ p) with
    | error e => rw [hgbs] at h; exact absurd h (by simp)
    | ok sv =>
      rw [hgbs] at h
      by_cases ht : t.revalidates_with_time = true
      · simp only [ht, if_true] at h
        cases hdt : decode_time_str t.get_revalidate_interval.get! now with
        | error e => rw [hdt] at h; exact absurd h (by simp)
        | ok d =>
          rw [hdt] at h
          simp only [Except.ok.injEq, Prod.mk.injEq] at h
          obtain ⟨-, -, h5⟩ := h
          exact h5.symm
      · simp only [Bool.not_eq_true] at ht
        simp only [ht, Bool.false_eq_true, if_false] at h
        simp only [Except.ok.injEq, Prod.mk.injEq] at h
        obtain ⟨-, -, h5⟩ := h
        exact h5.symm
  · intro hbs hinc hic html_s head_s states cm2 calls h
    obtain ⟨tr2, html0, head0, -, hbp, -⟩ :=
      page_core_inv raw_path locale t req cm tm now dbg html_s head_s states
        cm2 calls h
    exact (build_phase_miss t tr2
      (if raw_path.isEmpty then "index" else raw_path)
      (locale ++ "-" ++ urlencode (if raw_path.isEmpty then "index" else raw_path))
      cm now dbg html0 head0 states.build_state cm2 calls hbs hinc hic hbp).1
  · intro he
    have hl := congrArg String.length he
    rw [String.length_append, String.length_append] at hl
    have h1 : ("/" : String).length = 1 := rfl
    omega

/-- Witness for C10: revalidation of the incremental fixture passes
`posts/p` to the generator where the cache-miss path passes `p`. -/
theorem C10_regeneration_path_arguments_witness :
    ["posts/p"] = [tmplIncr.get_path ++ "/" ++ "p"]
    ∧ ["p"] = [if ("p" : String).isEmpty then "index" else "p"] :=
  ⟨(C10_regeneration_path_arguments tmplIncr "p" "en" "xx-XX" "p" "en-p" "req"
      cmEmpty tmOk 5 false).1
      ("R[built:posts/p]", "H[built:posts/p]", some "built:posts/p") cmRev4
      ["posts/p"] rfl,
   (C10_regeneration_path_arguments tmplIncr "p" "en" "xx-XX" "p" "en-p" "req"
      cmEmpty tmOk 5 false).2.1 rfl rfl rfl
      "R[built:p]" "H[built:p]" ⟨some "built:p", none⟩ cmMiss4 ["p"] rfl⟩
